import Mathlib

/-
Verification of the blast batch-dispatch engine against its specification.

The engine lives in src/blaster/blaster.go.  Its orchestration core
(`New`, `Start`, `start`, `RegisterWorkerType`) is straight-line Go code
coordinating concurrent loops; we embed it shallowly:

* the sequential body of `Blaster.start` (blaster.go lines 134-177) becomes
  an event trace: each call, print, wait and channel close is one `Event`,
  emitted in program order;
* the relevant mutable engine state (`Blaster.err`, `Blaster.errorsIgnored`,
  the cancellation flag of the run context) becomes `BlasterState`;
* the channel allocations of `New` (blaster.go lines 66-95) become a record
  of channel capacities;
* `Blaster.Start` (blaster.go lines 104-132) becomes a function from the
  outcomes of its collaborators (config load, data open, log open) to a
  trace plus an `Except` result;
* components whose bodies are outside the provided sources (the error
  escalator loop, the rate-change slot semantics, the record fingerprint)
  are modelled from the specification; each such definition carries a doc
  comment starting with "Modelled from the spec:".
-/

/-- Which arm of the select at blaster.go line 150 unblocked: context
cancellation or the data-finished signal from the dispatch loop. -/
inductive StopTrigger where
  | ctxDone
  | dataFinished
  deriving DecidableEq

/-- One observable step of `Blaster.Start` / `Blaster.start`, in program
order.  Constructor names follow the calls in blaster.go. -/
inductive Event where
  | openedDataFile
  | openedLog
  | addSegment
  | startTickerLoop
  | startMainLoop
  | startErrorLoop
  | startWorkers
  | startLogLoop
  | startStatusLoop
  | startRateLoop
  | printRatePrompt
  | selectDone (t : StopTrigger)
  | printWaitingWorkers
  | workerWaitWait
  | printAllWorkersFinished
  | closeWorkersFinished
  | printWaitingProcesses
  | mainWaitWait
  | printAllProcessesFinished
  | printBlank
  | printIgnored (n : Nat)
  | printFatal (e : String)
  | printStatusFinal
  | flushedLog
  | closedDataFile
  deriving DecidableEq

/-- The engine state the summary and the error escalator read and write:
the fatal-error slot `Blaster.err`, the `Blaster.errorsIgnored` counter and
the cancellation flag of the run context. -/
structure BlasterState where
  err : Option String
  errorsIgnored : Nat
  cancelled : Bool
  deriving DecidableEq

/-- Capacity of one Go channel as allocated in `New`. -/
structure ChannelSpec where
  capacity : Nat
  deriving DecidableEq

/-- The channels allocated by `New` (blaster.go lines 66-85), by field name. -/
structure BlasterChannels where
  dataFinishedChannel : ChannelSpec
  workersFinishedChannel : ChannelSpec
  changeRateChannel : ChannelSpec
  errorChannel : ChannelSpec
  logChannel : ChannelSpec
  mainChannel : ChannelSpec
  workerChannel : ChannelSpec
  signalChannel : ChannelSpec
  deriving DecidableEq

/-- What `New` builds: the channel capacities plus the initial engine state
(no fatal error, zero ignored errors, context not cancelled). -/
structure BlasterInit where
  channels : BlasterChannels
  state : BlasterState
  deriving DecidableEq

/-- The final-summary block of `Blaster.start` (blaster.go lines 165-174):
with a recorded fatal error it prints a blank line, the ignored-error count
when that count is positive, and the fatal error; otherwise it prints the
final status. -/
def summaryTrace (b : BlasterState) : List Event :=
  match b.err with
  | some e =>
      Event.printBlank ::
        ((if 0 < b.errorsIgnored then [Event.printIgnored b.errorsIgnored] else []) ++
          [Event.printFatal e])
  | none => [Event.printStatusFinal]

/-- The calls `Blaster.start` makes before blocking on the select
(blaster.go lines 136-146), in program order. -/
def startupEvents : List Event :=
  [Event.addSegment, Event.startTickerLoop, Event.startMainLoop, Event.startErrorLoop,
   Event.startWorkers, Event.startLogLoop, Event.startStatusLoop, Event.startRateLoop,
   Event.printRatePrompt]

/-- The shutdown steps of `Blaster.start` between the select and the final
summary (blaster.go lines 154-163): wait for the worker wait group, close
`workersFinishedChannel`, wait for the main wait group, with the progress
prints around them. -/
def drainEvents : List Event :=
  [Event.printWaitingWorkers, Event.workerWaitWait, Event.printAllWorkersFinished,
   Event.closeWorkersFinished,
   Event.printWaitingProcesses, Event.mainWaitWait, Event.printAllProcessesFinished]

/-- The full event trace of `Blaster.start` (blaster.go lines 134-177):
startup calls, the select on cancellation or data-finished, the drain
sequence, then the final summary. -/
def startTrace (b : BlasterState) (t : StopTrigger) : List Event :=
  startupEvents ++ [Event.selectDone t] ++ drainEvents ++ summaryTrace b

/-- Modelled from the spec: the configuration record (`configDef` is declared
outside the provided sources).  The spec says configuration supplies the
source and sink locations, the worker-type key, the initial rate and the
pool size; `Blaster.Start` reads only the `Data` field (the data-source
location) for its emptiness check. -/
structure ConfigDef where
  Data : String
  Log : String
  WorkerType : String
  Rate : Rat
  Workers : Nat
  deriving DecidableEq

namespace Blaster

/-- The construction performed by `New` (blaster.go lines 66-95): unbuffered
channels throughout except `changeRateChannel` and `signalChannel`, which
have capacity 1, and a fresh engine state. -/
def New : BlasterInit :=
  { channels :=
      { dataFinishedChannel := ⟨0⟩
        workersFinishedChannel := ⟨0⟩
        changeRateChannel := ⟨1⟩
        errorChannel := ⟨0⟩
        logChannel := ⟨0⟩
        mainChannel := ⟨0⟩
        workerChannel := ⟨0⟩
        signalChannel := ⟨1⟩ }
    state := { err := none, errorsIgnored := 0, cancelled := false } }

/-- The body of `Blaster.start` (blaster.go lines 134-177): it emits
`startTrace` and always returns nil (the Go function ends in `return nil`
on every path). -/
def start (b : BlasterState) (t : StopTrigger) : List Event × Option String :=
  (startTrace b t, none)

/-- Outcomes of the collaborators `Blaster.Start` consults, plus the engine
state reached by the run and which signal ended it. -/
structure StartEnv where
  loadConfig : Except String ConfigDef
  openData : Except String (List String)
  openLog : Except String Unit
  runState : BlasterState
  trigger : StopTrigger

/-- The body of `Blaster.Start` (blaster.go lines 104-132): load the config,
reject an empty `Data` field, open the data file, open the log, then run
`start`; the deferred close of the data file and flush of the log run on the
way out in LIFO order. -/
def Start (env : StartEnv) : List Event × Except String Unit :=
  match env.loadConfig with
  | Except.error e => ([], Except.error e)
  | Except.ok cfg =>
    if cfg.Data = "" then
      ([], Except.error "No data file specified. Use --config to view current config.")
    else
      match env.openData with
      | Except.error e => ([], Except.error e)
      | Except.ok _headers =>
        match env.openLog with
        | Except.error e => ([Event.openedDataFile, Event.closedDataFile], Except.error e)
        | Except.ok _ =>
          let r := start env.runState env.trigger
          ([Event.openedDataFile, Event.openedLog] ++ r.1 ++
             [Event.flushedLog, Event.closedDataFile],
           match r.2 with
           | none => Except.ok ()
           | some e => Except.error e)

/-- The registration performed by `Blaster.RegisterWorkerType` (blaster.go
lines 179-181): a Go map assignment, embedded as pointwise function update. -/
def RegisterWorkerType {α : Type} (m : String → Option α) (key : String) (w : α) :
    String → Option α :=
  fun k => if k = key then some w else m k

/-- Modelled from the spec: the error escalator (`Report`, realised by the
error loop whose body is outside the provided sources).  The first reported
failure records the error in the fatal-error slot and triggers global
cancellation; every later failure only increments the ignored-error counter
and is discarded, never replacing the recorded fatal error. -/
def report (b : BlasterState) (e : String) : BlasterState :=
  match b.err with
  | none => { b with err := some e, cancelled := true }
  | some _ => { b with errorsIgnored := b.errorsIgnored + 1 }

/-- Modelled from the spec: `SetRate(newRate)` places the new rate in the
capacity-1 pending-change slot, overwriting any change already pending
(latest request wins; the accepting loop body is outside the provided
sources).  The slot is `none` when no change is pending. -/
def SetRate (_pending : Option Rat) (newRate : Rat) : Option Rat :=
  some newRate

/-- A record read from the data source: an ordered sequence of field
values. -/
structure Record where
  fields : List String
  deriving DecidableEq

/-- Modelled from the spec: the deterministic 128-bit fingerprint of a
record, computed over its ordered field values (the hashing call, a
farmhash 128-bit digest of the joined fields, is outside the provided
sources).  Embedded as a pure fold over the fields with a per-field
boundary mix, reduced modulo 2 to the 128. -/
def fingerprint (fields : List String) : Nat :=
  (fields.foldl
    (fun h f =>
      f.toList.foldl (fun h c => (h * 31 + c.toNat) % 2 ^ 128) ((h * 131 + 1) % 2 ^ 128))
    5381) % 2 ^ 128

/-- Operations that can touch the run during its lifetime, as far as the
cancellation flag and the fatal-error state are concerned: the signal
goroutine of `New` observing an operator interrupt and calling `cancel`
(blaster.go lines 87-94), a failure report reaching the error escalator,
and any step that touches neither. -/
inductive RunOp where
  | interrupt
  | reportErr (e : String)
  | dispatch
  deriving DecidableEq

/-- Effect of one run operation on the engine state: an operator interrupt
cancels the run context; a failure report goes through the error escalator;
other steps leave this state alone.  No operation ever clears the
cancellation flag (Go contexts cannot be uncancelled). -/
def applyOp (s : BlasterState) : RunOp → BlasterState
  | RunOp.interrupt => { s with cancelled := true }
  | RunOp.reportErr e => report s e
  | RunOp.dispatch => s

/-- Events that belong to the final summary block. -/
def isSummaryEvent : Event → Bool
  | Event.printBlank => true
  | Event.printIgnored _ => true
  | Event.printFatal _ => true
  | Event.printStatusFinal => true
  | _ => false

/-- Events that start one of the engine components. -/
def isComponentStart : Event → Bool
  | Event.startTickerLoop => true
  | Event.startMainLoop => true
  | Event.startErrorLoop => true
  | Event.startWorkers => true
  | Event.startLogLoop => true
  | Event.startStatusLoop => true
  | Event.startRateLoop => true
  | _ => false

/-- True when the trace contains the fatal-error summary line. -/
def hasFatalLine (l : List Event) : Bool :=
  l.any fun e =>
    match e with
    | Event.printFatal _ => true
    | _ => false

/-- True when the trace contains the final-status summary line. -/
def hasStatusLine (l : List Event) : Bool :=
  l.any fun e =>
    match e with
    | Event.printStatusFinal => true
    | _ => false

/-- Strict precedence of two events in a trace, by first occurrence. -/
def beforeIn (l : List Event) (a c : Event) : Bool :=
  Nat.blt (l.indexOf a) (l.indexOf c)

/-- The startup order asserted by the specification, read off its sentence:
Rate Controller, then Dispatch Loop, then Worker Pool, then Logging
Pipeline, then Error Escalator, then Status Reporter. -/
def claimedStartupOrder (l : List Event) : Bool :=
  beforeIn l Event.startTickerLoop Event.startMainLoop &&
  beforeIn l Event.startMainLoop Event.startWorkers &&
  beforeIn l Event.startWorkers Event.startLogLoop &&
  beforeIn l Event.startLogLoop Event.startErrorLoop &&
  beforeIn l Event.startErrorLoop Event.startStatusLoop

end Blaster

namespace Blaster

/-- The final summary block consists of summary events only. -/
lemma summaryTrace_all_summary (b : BlasterState) :
    (summaryTrace b).all isSummaryEvent = true := by
  unfold summaryTrace
  rcases b.err with _ | e
  · rfl
  · by_cases h : 0 < b.errorsIgnored <;> simp [h, isSummaryEvent]

/-- The final summary block starts no component. -/
lemma summaryTrace_no_component (b : BlasterState) :
    (summaryTrace b).all (fun ev => !(isComponentStart ev)) = true := by
  unfold summaryTrace
  rcases b.err with _ | e
  · rfl
  · by_cases h : 0 < b.errorsIgnored <;> simp [h, isComponentStart]

/-- Once a fatal error is recorded, every further report keeps it and only
counts: the escalator never replaces the first error. -/
lemma foldl_report_some (es : List String) (s : BlasterState) (e0 : String)
    (h : s.err = some e0) :
    (List.foldl report s es).err = some e0 ∧
      (List.foldl report s es).errorsIgnored = s.errorsIgnored + es.length := by
  induction es generalizing s with
  | nil => simpa using h
  | cons e rest ih =>
    have hr : report s e = { s with errorsIgnored := s.errorsIgnored + 1 } := by
      unfold report
      rw [h]
    have hrec := ih { s with errorsIgnored := s.errorsIgnored + 1 } (by simpa using h)
    simp only [List.foldl_cons, hr]
    refine ⟨hrec.1, ?_⟩
    rw [hrec.2]
    simp [List.length_cons]
    omega

/-- The cancellation flag survives every single run operation. -/
lemma applyOp_keeps_cancelled (s : BlasterState) (op : RunOp)
    (h : s.cancelled = true) : (applyOp s op).cancelled = true := by
  cases op with
  | interrupt => rfl
  | reportErr e =>
    unfold applyOp report
    rcases hs : s.err with _ | e0 <;> simp [hs, h]
  | dispatch => exact h

/-- The cancellation flag survives every sequence of run operations. -/
lemma foldl_applyOp_cancelled (ops : List RunOp) (s : BlasterState)
    (h : s.cancelled = true) : (List.foldl applyOp s ops).cancelled = true := by
  induction ops generalizing s with
  | nil => simpa using h
  | cons op rest ih => exact ih _ (applyOp_keeps_cancelled s op h)

end Blaster

/-- C1: during shutdown, `Blaster.start` proceeds strictly in order: it
blocks on the select until cancellation or the data-finished signal, then
waits for the worker wait group, only then closes `workersFinishedChannel`,
then waits for the consumer loops on the main wait group, and only after
all of that emits the final summary; no summary event occurs before the
drain sequence completes. -/
theorem blaster_shutdown_order (b : BlasterState) (t : StopTrigger) :
    ∃ pre, (Blaster.start b t).1 = pre ++ drainEvents ++ summaryTrace b ∧
      pre.getLast? = some (Event.selectDone t) ∧
      pre.all (fun e => !(Blaster.isSummaryEvent e)) = true ∧
      drainEvents.all (fun e => !(Blaster.isSummaryEvent e)) = true ∧
      (summaryTrace b).all Blaster.isSummaryEvent = true ∧
      (summaryTrace b).isEmpty = false := by
  refine ⟨startupEvents ++ [Event.selectDone t], rfl, rfl, rfl, rfl,
    Blaster.summaryTrace_all_summary b, ?_⟩
  rcases hb : b.err with _ | e <;> simp [summaryTrace, hb]

/-- C4: an operator interrupt triggers the process-wide cancellation; the
cancellation is permanent under every later run operation; and the shutdown
path after the select is one and the same event sequence whichever arm of
the select fired, so an interrupt follows exactly the graceful path of
normal completion. -/
theorem interrupt_graceful_shutdown (s b : BlasterState) (t : StopTrigger)
    (ops : List Blaster.RunOp) :
    (Blaster.applyOp s Blaster.RunOp.interrupt).cancelled = true ∧
    (List.foldl Blaster.applyOp (Blaster.applyOp s Blaster.RunOp.interrupt) ops).cancelled
      = true ∧
    List.drop 10 (Blaster.start b t).1 = drainEvents ++ summaryTrace b :=
  ⟨rfl, Blaster.foldl_applyOp_cancelled ops _ rfl, rfl⟩

/-- C5: rate changes go through a pending-change slot of capacity exactly
one (the `changeRateChannel` allocated by `New`), and `SetRate` overwrites
any pending value, so after any sequence of requests the pending change is
the latest request. -/
theorem setRate_latest_wins (pending : Option Rat) (r : Rat) (rs : List Rat) :
    Blaster.New.channels.changeRateChannel.capacity = 1 ∧
    Blaster.SetRate pending r = some r ∧
    List.foldl Blaster.SetRate pending (rs ++ [r]) = some r := by
  refine ⟨rfl, rfl, ?_⟩
  simp [List.foldl_append, Blaster.SetRate]

/-- C10: `RegisterWorkerType` stores the factory under the given key, a
second registration under the same key replaces the first, and every other
key is left unchanged. -/
theorem registerWorkerType_updates {α : Type} (m : String → Option α)
    (key k2 : String) (w w2 : α) (h : k2 ≠ key) :
    Blaster.RegisterWorkerType m key w key = some w ∧
    Blaster.RegisterWorkerType (Blaster.RegisterWorkerType m key w) key w2 key = some w2 ∧
    Blaster.RegisterWorkerType m key w k2 = m k2 := by
  unfold Blaster.RegisterWorkerType
  exact ⟨by simp, by simp, by simp [h]⟩

/-- Witness for C10 at a concrete registry, key and factories. -/
theorem registerWorkerType_updates_witness :
    Blaster.RegisterWorkerType (fun _ => (none : Option Nat)) "dummy" 1 "dummy" = some 1 ∧
    Blaster.RegisterWorkerType
      (Blaster.RegisterWorkerType (fun _ => (none : Option Nat)) "dummy" 1) "dummy" 2 "dummy"
      = some 2 ∧
    Blaster.RegisterWorkerType (fun _ => (none : Option Nat)) "dummy" 1 "other" = none :=
  registerWorkerType_updates (fun _ => none) "dummy" "other" 1 2 (by decide)

/-- C2: the run trace contains the fatal-error summary exactly when a fatal
error was recorded and the final-status summary exactly otherwise; with a
recorded fatal error the trace reports that error, plus the ignored-error
count whenever that count is positive. -/
theorem final_summary_exactly_one (b : BlasterState) (t : StopTrigger) (e : String) :
    Blaster.hasFatalLine (Blaster.start b t).1 = b.err.isSome ∧
    Blaster.hasStatusLine (Blaster.start b t).1 = b.err.isNone ∧
    (b.err = some e →
      Event.printFatal e ∈ (Blaster.start b t).1 ∧
      (0 < b.errorsIgnored → Event.printIgnored b.errorsIgnored ∈ (Blaster.start b t).1)) := by
  refine ⟨?_, ?_, ?_⟩
  · unfold Blaster.hasFatalLine Blaster.start startTrace
    cases t <;>
      · rcases hb : b.err with _ | e0 <;>
          by_cases h : 0 < b.errorsIgnored <;>
            simp [List.any_append, summaryTrace, hb, h, startupEvents, drainEvents]
  · unfold Blaster.hasStatusLine Blaster.start startTrace
    cases t <;>
      · rcases hb : b.err with _ | e0 <;>
          by_cases h : 0 < b.errorsIgnored <;>
            simp [List.any_append, summaryTrace, hb, h, startupEvents, drainEvents]
  · intro hb
    constructor
    · unfold Blaster.start startTrace
      simp [List.mem_append, summaryTrace, hb]
    · intro h
      unfold Blaster.start startTrace
      simp [List.mem_append, summaryTrace, hb, h]

/-- Witness for C2 at a state with a recorded fatal error and two ignored
errors. -/
theorem final_summary_exactly_one_witness :
    Blaster.hasFatalLine (Blaster.start ⟨some "boom", 2, true⟩ StopTrigger.ctxDone).1 = true ∧
    Event.printFatal "boom" ∈ (Blaster.start ⟨some "boom", 2, true⟩ StopTrigger.ctxDone).1 ∧
    Event.printIgnored 2 ∈ (Blaster.start ⟨some "boom", 2, true⟩ StopTrigger.ctxDone).1 := by
  have h := final_summary_exactly_one ⟨some "boom", 2, true⟩ StopTrigger.ctxDone "boom"
  exact ⟨h.1, (h.2.2 rfl).1, (h.2.2 rfl).2 (by decide)⟩

/-- C3: running any sequence of failure reports through the error escalator
from the initial engine state records the first failure as the fatal error,
counts every later failure as ignored, and therefore a positive ignored
count implies a fatal error is already recorded. -/
theorem errorsIgnored_after_fatal (es : List String) :
    (List.foldl Blaster.report Blaster.New.state es).err = es.head? ∧
    (List.foldl Blaster.report Blaster.New.state es).errorsIgnored = es.length - 1 ∧
    (0 < (List.foldl Blaster.report Blaster.New.state es).errorsIgnored →
      (List.foldl Blaster.report Blaster.New.state es).err.isSome = true) := by
  cases es with
  | nil => exact ⟨rfl, rfl, fun h => absurd h (by decide)⟩
  | cons e rest =>
    have h1 : Blaster.report Blaster.New.state e =
        { err := some e, errorsIgnored := 0, cancelled := true } := rfl
    have h2 := Blaster.foldl_report_some rest
      { err := some e, errorsIgnored := 0, cancelled := true } e rfl
    simp only [List.foldl_cons, h1]
    refine ⟨by rw [h2.1]; rfl, by rw [h2.2]; simp, fun _ => by rw [h2.1]; rfl⟩

/-- Witness for C3 at the report sequence a, b. -/
theorem errorsIgnored_after_fatal_witness :
    (List.foldl Blaster.report Blaster.New.state ["a", "b"]).err = some "a" ∧
    (List.foldl Blaster.report Blaster.New.state ["a", "b"]).errorsIgnored = 1 ∧
    (List.foldl Blaster.report Blaster.New.state ["a", "b"]).err.isSome = true := by
  have h := errorsIgnored_after_fatal ["a", "b"]
  exact ⟨h.1, h.2.1, h.2.2 (by decide)⟩

/-- Counterexample to C6 as stated: on a successfully configured run the
startup trace of the engine does not satisfy the order Rate Controller,
Dispatch Loop, Worker Pool, Logging Pipeline, Error Escalator, Status
Reporter, because `startErrorLoop` is called before `startWorkers` and
`startLogLoop` (blaster.go lines 139-141). -/
theorem claimed_startup_order_false :
    Blaster.claimedStartupOrder
      (Blaster.Start
        { loadConfig := Except.ok
            { Data := "data.csv", Log := "log.csv", WorkerType := "dummy",
              Rate := 10, Workers := 10 },
          openData := Except.ok ["head"],
          openLog := Except.ok (),
          runState := { err := none, errorsIgnored := 0, cancelled := false },
          trigger := StopTrigger.dataFinished }).1 = false := by
  decide

/-- C6 amended: whenever `Blaster.Start` succeeds, the trace opens the data
file (which also loads the resume filter) and the log, and then starts the
components in the order of blaster.go lines 136-144: the Rate Controller
ticker, the Dispatch Loop, the Error Escalator, the Worker Pool, the
Logging Pipeline, the Status Reporter, and finally the rate-input loop; no
component is started after that. -/
theorem actual_startup_order (env : Blaster.StartEnv)
    (h : (Blaster.Start env).2 = Except.ok ()) :
    ∃ rest, (Blaster.Start env).1 =
      [Event.openedDataFile, Event.openedLog, Event.addSegment,
       Event.startTickerLoop, Event.startMainLoop, Event.startErrorLoop,
       Event.startWorkers, Event.startLogLoop, Event.startStatusLoop,
       Event.startRateLoop, Event.printRatePrompt] ++ rest ∧
      rest.all (fun ev => !(Blaster.isComponentStart ev)) = true := by
  rcases hl : env.loadConfig with er | cfg
  · exfalso
    unfold Blaster.Start at h
    rw [hl] at h
    simp at h
  · by_cases hd : cfg.Data = ""
    · exfalso
      unfold Blaster.Start at h
      rw [hl] at h
      simp [hd] at h
    · rcases ho : env.openData with er | hs
      · exfalso
        unfold Blaster.Start at h
        rw [hl] at h
        simp [hd, ho] at h
      · rcases hg : env.openLog with er | u
        · exfalso
          unfold Blaster.Start at h
          rw [hl] at h
          simp [hd, ho, hg] at h
        · refine ⟨[Event.selectDone env.trigger] ++ drainEvents ++
              summaryTrace env.runState ++ [Event.flushedLog, Event.closedDataFile],
            ?_, ?_⟩
          · unfold Blaster.Start
            simp only [hl, if_neg hd, ho, hg]
            rfl
          · simp only [List.all_append, Bool.and_eq_true]
            exact ⟨⟨⟨rfl, rfl⟩, Blaster.summaryTrace_no_component env.runState⟩, rfl⟩

/-- Witness for the amended C6 at a concrete, successfully configured run. -/
theorem actual_startup_order_witness :
    ∃ rest,
      (Blaster.Start
        { loadConfig := Except.ok
            { Data := "data.csv", Log := "log.csv", WorkerType := "dummy",
              Rate := 10, Workers := 10 },
          openData := Except.ok ["head"],
          openLog := Except.ok (),
          runState := { err := none, errorsIgnored := 0, cancelled := false },
          trigger := StopTrigger.ctxDone }).1 =
        [Event.openedDataFile, Event.openedLog, Event.addSegment,
         Event.startTickerLoop, Event.startMainLoop, Event.startErrorLoop,
         Event.startWorkers, Event.startLogLoop, Event.startStatusLoop,
         Event.startRateLoop, Event.printRatePrompt] ++ rest ∧
      rest.all (fun ev => !(Blaster.isComponentStart ev)) = true :=
  actual_startup_order
    { loadConfig := Except.ok
        { Data := "data.csv", Log := "log.csv", WorkerType := "dummy",
          Rate := 10, Workers := 10 },
      openData := Except.ok ["head"],
      openLog := Except.ok (),
      runState := { err := none, errorsIgnored := 0, cancelled := false },
      trigger := StopTrigger.ctxDone } rfl

/-- C7: with an empty configured data-source location `Blaster.Start`
returns the fatal startup error with an empty effect trace, so neither the
source nor the sink is opened and no component is started; a config-load
failure likewise aborts with an empty trace. -/
theorem missing_config_startup_error (env : Blaster.StartEnv) (cfg : ConfigDef)
    (er : String) :
    (env.loadConfig = Except.ok cfg → cfg.Data = "" →
      Blaster.Start env =
        ([], Except.error "No data file specified. Use --config to view current config.")) ∧
    (env.loadConfig = Except.error er → Blaster.Start env = ([], Except.error er)) := by
  constructor
  · intro h1 h2
    unfold Blaster.Start
    simp only [h1, if_pos h2]
  · intro h
    unfold Blaster.Start
    simp only [h]

/-- Witness for C7 at a configuration whose data location is empty. -/
theorem missing_config_startup_error_witness :
    Blaster.Start
      { loadConfig := Except.ok
          { Data := "", Log := "log.csv", WorkerType := "dummy", Rate := 10, Workers := 10 },
        openData := Except.ok ["head"],
        openLog := Except.ok (),
        runState := { err := none, errorsIgnored := 0, cancelled := false },
        trigger := StopTrigger.ctxDone } =
      ([], Except.error "No data file specified. Use --config to view current config.") :=
  (missing_config_startup_error
    { loadConfig := Except.ok
        { Data := "", Log := "log.csv", WorkerType := "dummy", Rate := 10, Workers := 10 },
      openData := Except.ok ["head"],
      openLog := Except.ok (),
      runState := { err := none, errorsIgnored := 0, cancelled := false },
      trigger := StopTrigger.ctxDone }
    { Data := "", Log := "log.csv", WorkerType := "dummy", Rate := 10, Workers := 10 }
    "x").1 rfl rfl

/-- C8: the record fingerprint is a pure deterministic function of the
ordered field values and always fits in 128 bits: records with equal field
sequences have equal fingerprints. -/
theorem fingerprint_deterministic (a b : Blaster.Record) (h : a.fields = b.fields) :
    Blaster.fingerprint a.fields = Blaster.fingerprint b.fields ∧
    Blaster.fingerprint a.fields < 2 ^ 128 := by
  constructor
  · rw [h]
  · unfold Blaster.fingerprint
    exact Nat.mod_lt _ (by norm_num)

/-- Witness for C8 at two records with the same two fields. -/
theorem fingerprint_deterministic_witness :
    Blaster.fingerprint ["alpha", "beta"] = Blaster.fingerprint ["alpha", "beta"] ∧
    Blaster.fingerprint ["alpha", "beta"] < 2 ^ 128 :=
  fingerprint_deterministic ⟨["alpha", "beta"]⟩ ⟨["alpha", "beta"]⟩ rfl

/-- C9: once startup succeeds, the error result of `Blaster.Start` is ok
even when the run recorded a fatal error: `Blaster.start` returns nil on
every path and the fatal error is only printed into the trace. -/
theorem start_swallows_runtime_error (env : Blaster.StartEnv) (cfg : ConfigDef)
    (hs : List String) (e : String)
    (h1 : env.loadConfig = Except.ok cfg) (h2 : cfg.Data ≠ "")
    (h3 : env.openData = Except.ok hs) (h4 : env.openLog = Except.ok ())
    (h5 : env.runState.err = some e) :
    (Blaster.start env.runState env.trigger).2 = none ∧
    (Blaster.Start env).2 = Except.ok () ∧
    Event.printFatal e ∈ (Blaster.Start env).1 := by
  have hS : Blaster.Start env =
      ([Event.openedDataFile, Event.openedLog] ++
         (Blaster.start env.runState env.trigger).1 ++
         [Event.flushedLog, Event.closedDataFile], Except.ok ()) := by
    unfold Blaster.Start
    simp only [h1, if_neg h2, h3, h4]
    rfl
  refine ⟨rfl, by rw [hS], ?_⟩
  rw [hS]
  simp only [Blaster.start, startTrace, List.mem_append]
  left
  right
  right
  by_cases hn : 0 < env.runState.errorsIgnored <;> simp [summaryTrace, h5, hn]

/-- Witness for C9 at a run that recorded the fatal error boom. -/
theorem start_swallows_runtime_error_witness :
    (Blaster.Start
      { loadConfig := Except.ok
          { Data := "data.csv", Log := "log.csv", WorkerType := "dummy",
            Rate := 10, Workers := 10 },
        openData := Except.ok ["head"],
        openLog := Except.ok (),
        runState := { err := some "boom", errorsIgnored := 3, cancelled := true },
        trigger := StopTrigger.ctxDone }).2 = Except.ok () ∧
    Event.printFatal "boom" ∈
      (Blaster.Start
        { loadConfig := Except.ok
            { Data := "data.csv", Log := "log.csv", WorkerType := "dummy",
              Rate := 10, Workers := 10 },
          openData := Except.ok ["head"],
          openLog := Except.ok (),
          runState := { err := some "boom", errorsIgnored := 3, cancelled := true },
          trigger := StopTrigger.ctxDone }).1 := by
  have h := start_swallows_runtime_error
    { loadConfig := Except.ok
        { Data := "data.csv", Log := "log.csv", WorkerType := "dummy",
          Rate := 10, Workers := 10 },
      openData := Except.ok ["head"],
      openLog := Except.ok (),
      runState := { err := some "boom", errorsIgnored := 3, cancelled := true },
      trigger := StopTrigger.ctxDone }
    { Data := "data.csv", Log := "log.csv", WorkerType := "dummy", Rate := 10, Workers := 10 }
    ["head"] "boom" rfl (by decide) rfl rfl rfl
  exact ⟨h.2.1, h.2.2⟩
